import Mathlib

/- Verification development for the statistics aggregation and reward accounting
core of the bike-computer backend (Express plus Mongoose).

Modelling conventions.
JavaScript numbers are modelled as rationals; the one place where IEEE-754
non-finite values are observable in this core is division (a weekly
average-speed computation and a best-effort pace estimate can divide by
zero), so results of JavaScript division are modelled by the JSNum type,
which carries Infinity, -Infinity and NaN alongside finite rationals.
Instants are milliseconds since the Unix epoch on a fixed-offset timeline:
the server local time is taken to coincide with UTC, and daylight-saving
shifts are not modelled.  Built-in Date component accessors (getFullYear,
getUTCDay, Date.UTC and so on) are embedded through their ECMA-262
definitions (DayFromYear, YearFromTime, Day, WeekDay).  Integer division in
Lean rounds toward negative infinity for positive divisors, which matches
the floor operations of ECMA-262.
Database documents become Lean structures; a request handler becomes a pure
function from an application state (the documents of one user) to a new
application state; persistence, authentication, HTTP shaping and logging
collaborators are elided. -/

/-- Result of JavaScript arithmetic: a finite rational, one of the two
infinities, or NaN. -/
inductive JSNum where
  | fin (q : ℚ)
  | posInf
  | negInf
  | nan
deriving DecidableEq, Repr

/-- JavaScript division of two finite numbers (IEEE-754 semantics: x / 0 is a
signed infinity for nonzero x, and 0 / 0 is NaN). -/
def jsDivQ (a b : ℚ) : JSNum :=
  if b ≠ 0 then .fin (a / b)
  else if 0 < a then .posInf
  else if a < 0 then .negInf
  else .nan

/-- Multiplication of a JavaScript number by the positive finite constant 3600
(IEEE-754: infinities keep their sign, NaN propagates). -/
def jsMul3600 : JSNum → JSNum
  | .fin q => .fin (q * 3600)
  | .posInf => .posInf
  | .negInf => .negInf
  | .nan => .nan

/-- JavaScript strict less-than on numbers: every comparison involving NaN is
false; -Infinity is below every other value and Infinity above. -/
def jsLt : JSNum → JSNum → Bool
  | .fin a, .fin b => a < b
  | .fin _, .posInf => true
  | .negInf, .fin _ => true
  | .negInf, .posInf => true
  | _, _ => false

/-- ECMA-262 Math.round on a finite number: the closest integer, with ties
rounded toward positive infinity. -/
def jsRound (q : ℚ) : ℤ := ⌊q + 1/2⌋

/-- Modelled from the spec: rounding half away from zero, the rounding rule
the specification contract names for the coin formula. -/
def roundHalfAwayFromZero (q : ℚ) : ℤ :=
  if 0 ≤ q then ⌊q + 1/2⌋ else -⌊-q + 1/2⌋

/-- ECMA-262 DayFromYear: the day number (days since 1970-01-01) of January 1
of calendar year y. -/
def dayFromYear (y : ℤ) : ℤ :=
  365*(y-1970) + (y-1969)/4 - (y-1901)/100 + (y-1601)/400

/-- ECMA-262 YearFromTime on day numbers: the calendar year whose span of days
contains day d.  ECMA-262 defines it by the characterisation proved in
yearFromDay_spec below; here it is computed from a linear estimate followed
by at most three upward corrections. -/
def yearFromDay (d : ℤ) : ℤ :=
  let y0 : ℤ := 1969 + (400*d)/146097
  if d < dayFromYear (y0+1) then y0
  else if d < dayFromYear (y0+2) then y0+1
  else if d < dayFromYear (y0+3) then y0+2
  else y0+3

/-- ECMA-262 Day(t): the day number containing instant t, floor of t divided
by 86400000 milliseconds. -/
def tday (t : ℤ) : ℤ := t / 86400000

/-- ECMA-262 WeekDay on day numbers: 0 is Sunday; day 0 (1970-01-01) was a
Thursday, hence the offset 4. -/
def weekDay (d : ℤ) : ℤ := (d + 4) % 7

/-- Date.prototype.getFullYear under the fixed zero-offset timeline. -/
def getFullYear (t : ℤ) : ℤ := yearFromDay (tday t)

/-- Translation of getWeekNumber (src/models/WeeklyStats.js lines 102-108).
The source first rebuilds new Date(Date.UTC(getFullYear, getMonth, getDate)),
which under the zero-offset timeline is midnight of the day containing the
input, so the intermediate value is the plain day number tday t.  It then
moves to the Thursday of the Monday-based week (getUTCDay with Sunday mapped
to 7), takes January 1 of the year of that Thursday as yearStart, and
returns Math.ceil of (dayDifference + 1) / 7; on integers, Math.ceil of n/7
is (n+6)/7 in floor division. -/
def getWeekNumber (t : ℤ) : ℤ :=
  let d0 := tday t
  let dayNum := if weekDay d0 = 0 then 7 else weekDay d0
  let d1 := d0 + 4 - dayNum
  let yearStart := dayFromYear (yearFromDay d1)
  (d1 - yearStart + 1 + 6) / 7

/-- Monday of the week containing instant t, per getWeekBounds
(src/models/WeeklyStats.js lines 111-124): setDate(getDate() - day +
(day === 0 ? -6 : 1)) renormalises out-of-range day-of-month values, so its
effect is plain day arithmetic moving back to the most recent Monday. -/
def weekStartDay (t : ℤ) : ℤ :=
  let day := weekDay (tday t)
  tday t - (if day = 0 then 6 else day - 1)

/-- Translation of getWeekBounds (src/models/WeeklyStats.js lines 111-124):
the Monday at 00:00:00.000 and the following Sunday at 23:59:59.999, as
instants. -/
def getWeekBounds (t : ℤ) : ℤ × ℤ :=
  (weekStartDay t * 86400000, (weekStartDay t + 6) * 86400000 + 86399999)

/-- Document key chosen by WeeklyStats.getOrCreate (src/models/WeeklyStats.js
lines 81-99): the pair of date.getFullYear() — the calendar year — and
getWeekNumber(date). -/
def weeklyKey (t : ℤ) : ℤ × ℤ := (getFullYear t, getWeekNumber t)

/-- Modelled from the spec: the ISO-8601 week-year of an instant, that is the
calendar year of the Thursday of its Monday-based week (week 1 is the week
containing the first Thursday of the year).  Used to compare the stored key
against the ISO definition the specification names. -/
def isoWeekYear (t : ℤ) : ℤ :=
  let d0 := tday t
  let dayNum := if weekDay d0 = 0 then 7 else weekDay d0
  yearFromDay (d0 + 4 - dayNum)

/-- Ride document restricted to the fields the statistics core reads
(src/models/Ride.js); rid is the document id and activityDate an instant in
milliseconds. -/
structure Ride where
  rid : ℕ
  userId : ℕ
  distance : ℚ
  averageSpeed : ℚ
  movingTime : ℚ
  elevationGained : ℚ
  coinsEarned : ℚ
  activityDate : ℤ
deriving DecidableEq, Repr

/-- Per-user aggregate fields manipulated by src/utils/calculateStats.js; a
best-effort field of none models the null of an effort distance never yet
covered. -/
structure UserStats where
  totalDistance : ℚ
  distanceThisYear : ℚ
  totalCoins : ℚ
  longestRideDistance : ℚ
  longestRideTime : ℚ
  maxElevationGained : ℚ
  best10kmTime : Option JSNum
  best20kmTime : Option JSNum
  best25kmTime : Option JSNum
  best50kmTime : Option JSNum
  best75kmTime : Option JSNum
  best100kmTime : Option JSNum
deriving DecidableEq, Repr

/-- Aggregate state after the reset block of recalculateUserStats
(src/utils/calculateStats.js lines 131-143): every running total is zero and
every best-effort field null. -/
def zeroUserStats : UserStats :=
  { totalDistance := 0
    distanceThisYear := 0
    totalCoins := 0
    longestRideDistance := 0
    longestRideTime := 0
    maxElevationGained := 0
    best10kmTime := none
    best20kmTime := none
    best25kmTime := none
    best50kmTime := none
    best75kmTime := none
    best100kmTime := none }

/-- WeeklyStats document totals (src/models/WeeklyStats.js); averageSpeed is
a JSNum because the source computes it by a division whose divisor can be
zero. -/
structure WeeklyStat where
  totalDistance : ℚ
  totalRides : ℕ
  totalCoins : ℚ
  totalMovingTime : ℚ
  averageSpeed : JSNum
  weekStartDate : ℤ
  weekEndDate : ℤ
deriving DecidableEq, Repr

/-- Translation of calculateCoins (src/utils/calculateStats.js lines 12-14):
Math.round of distance times averageSpeed over 2.  The function performs no
input validation. -/
def calculateCoins (distance averageSpeed : ℚ) : ℤ :=
  jsRound (distance * averageSpeed / 2)

/-- Fixed effort distances of updateBestEfforts (src/utils/calculateStats.js
line 71). -/
def effortDistances : List ℚ := [10, 20, 25, 50, 75, 100]

/-- Pace estimate of updateBestEfforts (src/utils/calculateStats.js line 77):
(distance / ride.averageSpeed) * 3600 seconds, in JavaScript arithmetic. -/
def timeForDistance (distance averageSpeed : ℚ) : JSNum :=
  jsMul3600 (jsDivQ distance averageSpeed)

/-- Body of the updateBestEfforts loop for one effort distance
(src/utils/calculateStats.js lines 73-86): skip rides shorter than the
target, otherwise replace the stored record when it is null or when the new
estimate compares strictly smaller. -/
def updateOneEffort (distance : ℚ) (cur : Option JSNum) (r : Ride) : Option JSNum :=
  if distance ≤ r.distance then
    let t := timeForDistance distance r.averageSpeed
    match cur with
    | none => some t
    | some c => if jsLt t c then some t else some c
  else cur

/-- Translation of updateBestEfforts (src/utils/calculateStats.js lines
70-87).  The source iterates effortDistances updating the computed keys
best10kmTime through best100kmTime; each iteration touches a distinct field,
so the forEach unrolls to six independent field updates. -/
def updateBestEfforts (u : UserStats) (r : Ride) : UserStats :=
  { u with
    best10kmTime := updateOneEffort 10 u.best10kmTime r
    best20kmTime := updateOneEffort 20 u.best20kmTime r
    best25kmTime := updateOneEffort 25 u.best25kmTime r
    best50kmTime := updateOneEffort 50 u.best50kmTime r
    best75kmTime := updateOneEffort 75 u.best75kmTime r
    best100kmTime := updateOneEffort 100 u.best100kmTime r }

/-- Stored best-effort field addressed by the computed key of the source for
a given effort distance; distances outside effortDistances address no field
and yield none. -/
def bestField (u : UserStats) (distance : ℚ) : Option JSNum :=
  if distance = 10 then u.best10kmTime
  else if distance = 20 then u.best20kmTime
  else if distance = 25 then u.best25kmTime
  else if distance = 50 then u.best50kmTime
  else if distance = 75 then u.best75kmTime
  else if distance = 100 then u.best100kmTime
  else none

/-- Translation of the aggregate mutation of updateUserStats
(src/utils/calculateStats.js lines 21-63) as a pure state transformer;
currentYear stands for new Date().getFullYear() at the moment of
application, and the year of the ride comes from its activityDate. -/
def updateUserStats (currentYear : ℤ) (u : UserStats) (r : Ride) : UserStats :=
  let u1 :=
    { u with
      totalDistance := u.totalDistance + r.distance
      distanceThisYear :=
        if getFullYear r.activityDate = currentYear
        then u.distanceThisYear + r.distance else u.distanceThisYear
      totalCoins := u.totalCoins + r.coinsEarned
      longestRideDistance :=
        if u.longestRideDistance < r.distance then r.distance
        else u.longestRideDistance
      longestRideTime :=
        if u.longestRideTime < r.movingTime then r.movingTime
        else u.longestRideTime
      maxElevationGained :=
        if u.maxElevationGained < r.elevationGained then r.elevationGained
        else u.maxElevationGained }
  updateBestEfforts u1 r

/-- Body of the replay loop of recalculateUserStats
(src/utils/calculateStats.js lines 148-170); the individual field updates
are those of updateUserStats, in the order of the recalculation loop. -/
def recalcStep (currentYear : ℤ) (u : UserStats) (r : Ride) : UserStats :=
  let u1 :=
    { u with
      totalDistance := u.totalDistance + r.distance
      totalCoins := u.totalCoins + r.coinsEarned
      distanceThisYear :=
        if getFullYear r.activityDate = currentYear
        then u.distanceThisYear + r.distance else u.distanceThisYear
      longestRideDistance :=
        if u.longestRideDistance < r.distance then r.distance
        else u.longestRideDistance
      longestRideTime :=
        if u.longestRideTime < r.movingTime then r.movingTime
        else u.longestRideTime
      maxElevationGained :=
        if u.maxElevationGained < r.elevationGained then r.elevationGained
        else u.maxElevationGained }
  updateBestEfforts u1 r

/-- Translation of recalculateUserStats (src/utils/calculateStats.js lines
123-178): reset every aggregate field (lines 131-143) — so the result does
not depend on the prior aggregate — then replay the ride history, here
passed as the list already ordered by activityDate ascending as fetched on
line 129. -/
def recalculateUserStats (currentYear : ℤ) (rides : List Ride) : UserStats :=
  rides.foldl (recalcStep currentYear) zeroUserStats

/-- Translation of the weekly totals mutation of updateWeeklyStats
(src/utils/calculateStats.js lines 94-116) on the resolved weekly document:
increment the four totals, then recompute averageSpeed as totalDistance
divided by totalMovingTime over 3600 — a JavaScript division with no guard
against a zero divisor. -/
def updateWeeklyStats (w : WeeklyStat) (r : Ride) : WeeklyStat :=
  { w with
    totalDistance := w.totalDistance + r.distance
    totalRides := w.totalRides + 1
    totalCoins := w.totalCoins + r.coinsEarned
    totalMovingTime := w.totalMovingTime + r.movingTime
    averageSpeed :=
      jsDivQ (w.totalDistance + r.distance)
        ((w.totalMovingTime + r.movingTime) / 3600) }

/-- Fresh weekly document created by WeeklyStats.getOrCreate
(src/models/WeeklyStats.js lines 88-96): zeroed totals (schema defaults,
averageSpeed 0) and the resolved week bounds. -/
def freshWeekly (t : ℤ) : WeeklyStat :=
  { totalDistance := 0
    totalRides := 0
    totalCoins := 0
    totalMovingTime := 0
    averageSpeed := .fin 0
    weekStartDate := (getWeekBounds t).1
    weekEndDate := (getWeekBounds t).2 }

/-- Moderation flag document restricted to the fields the deletion flows
read (src/models/Flag.js). -/
inductive FlagStatus where
  | pending
  | resolved
  | dismissed
deriving DecidableEq, Repr

structure FlagDoc where
  fid : ℕ
  rideId : ℕ
  status : FlagStatus
deriving DecidableEq, Repr

/-- Documents of one user: the aggregate, the rides, the weekly rollup
documents keyed by (year, weekNumber), and the flags on the rides of this
user.  Other collections (admin logs, sessions) are elided. -/
structure AppState where
  userId : ℕ
  user : UserStats
  rides : List Ride
  weekly : List ((ℤ × ℤ) × WeeklyStat)
  flags : List FlagDoc
deriving DecidableEq, Repr

/-- Lookup of WeeklyStats.getOrCreate (src/models/WeeklyStats.js lines
81-99): the stored document for the key of the instant, or a fresh zeroed
document. -/
def getOrCreate (weekly : List ((ℤ × ℤ) × WeeklyStat)) (t : ℤ) : WeeklyStat :=
  match weekly.find? (fun p => p.1 = weeklyKey t) with
  | some p => p.2
  | none => freshWeekly t

/-- Ride lookup by document id (Ride.findById). -/
def findRide (rides : List Ride) (rideId : ℕ) : Option Ride :=
  rides.find? (fun r => r.rid = rideId)

/-- Ride deletion by document id (Ride.findByIdAndDelete). -/
def removeRide (rides : List Ride) (rideId : ℕ) : List Ride :=
  rides.filter (fun r => r.rid ≠ rideId)

/-- Translation of createRide (src/controllers/rideController.js lines
6-72): compute coinsEarned inline as Math.round(distance * averageSpeed / 2)
(line 27), persist the new ride with activityDate = new Date() (line 47),
and increment only totalCoins on the user document by a $inc update (lines
55-57).  The request carries the physical metrics of the ride; now is the
wall clock at handling time and newId the id given by the store. -/
structure RideReq where
  distance : ℚ
  averageSpeed : ℚ
  movingTime : ℚ
  elevationGained : ℚ
deriving DecidableEq, Repr

def createRide (s : AppState) (req : RideReq) (now : ℤ) (newId : ℕ) : AppState :=
  let coinsEarned := jsRound (req.distance * req.averageSpeed / 2)
  let ride : Ride :=
    { rid := newId
      userId := s.userId
      distance := req.distance
      averageSpeed := req.averageSpeed
      movingTime := req.movingTime
      elevationGained := req.elevationGained
      coinsEarned := (coinsEarned : ℚ)
      activityDate := now }
  { s with
    rides := s.rides ++ [ride]
    user := { s.user with totalCoins := s.user.totalCoins + (coinsEarned : ℚ) } }

/-- Translation of the owner deletion handler deleteRide
(src/controllers/rideController.js lines 266-306): 404 when the ride does
not resolve and 403 when the requester is not the owner leave the state
unchanged; otherwise decrement totalCoins of the requester by the
coinsEarned of the ride ($inc, lines 288-290) and delete the ride document.
The decrement shows on the modelled user document when the requester is
that user. -/
def deleteRide (s : AppState) (requesterId : ℕ) (rideId : ℕ) : AppState :=
  match findRide s.rides rideId with
  | none => s
  | some ride =>
    if ride.userId ≠ requesterId then s
    else
      { s with
        user :=
          if requesterId = s.userId
          then { s.user with totalCoins := s.user.totalCoins - ride.coinsEarned }
          else s.user
        rides := removeRide s.rides rideId }

/-- Translation of the admin deletion handler deleteRide
(src/controllers/adminController.js lines 374-432): no ownership check;
decrement totalCoins of the ride owner, delete the ride, and mark pending
flags of the ride resolved.  In this one-user state the coin decrement
applies when the ride belongs to the modelled user. -/
def adminDeleteRide (s : AppState) (rideId : ℕ) : AppState :=
  match findRide s.rides rideId with
  | none => s
  | some ride =>
    { s with
      user :=
        if ride.userId = s.userId
        then { s.user with totalCoins := s.user.totalCoins - ride.coinsEarned }
        else s.user
      rides := removeRide s.rides rideId
      flags := s.flags.map (fun f =>
        if f.rideId = rideId ∧ f.status = .pending
        then { f with status := .resolved } else f) }

/-- Translation of the moderation handler reviewFlag
(src/controllers/adminController.js lines 255-320): a missing or already
processed flag leaves the state unchanged; otherwise, when the flagged ride
still exists, decrement totalCoins of its owner and delete it; in every
remaining case mark the flag resolved. -/
def reviewFlag (s : AppState) (flagId : ℕ) : AppState :=
  match s.flags.find? (fun f => f.fid = flagId) with
  | none => s
  | some flag =>
    if flag.status ≠ .pending then s
    else
      let s1 :=
        match findRide s.rides flag.rideId with
        | none => s
        | some ride =>
          { s with
            user :=
              if ride.userId = s.userId
              then { s.user with totalCoins := s.user.totalCoins - ride.coinsEarned }
              else s.user
            rides := removeRide s.rides flag.rideId }
      { s1 with
        flags := s1.flags.map (fun f =>
          if f.fid = flagId then { f with status := .resolved } else f) }

/-- Ride history of the modelled user ordered by activityDate ascending
(Ride.find({userId}).sort({activityDate: 1}), src/utils/calculateStats.js
line 129). -/
def sortedRidesOf (s : AppState) : List Ride :=
  ((s.rides.filter (fun r => r.userId = s.userId)).mergeSort
    (fun a b => a.activityDate ≤ b.activityDate))

/-- Recalculation entry point at state level: recalculateUserStats rewrites
only the aggregate document of the user from the sorted surviving history
(src/utils/calculateStats.js lines 123-178 touch no weekly document). -/
def recalcHandler (currentYear : ℤ) (s : AppState) : AppState :=
  { s with user := recalculateUserStats currentYear (sortedRidesOf s) }

/-- Concrete instants used in the concrete theorems below: midnight starting
Monday 2024-12-30, Monday 2024-01-01, Friday 2027-01-01 and Wednesday
2025-01-01, as day numbers times 86400000 milliseconds. -/
def tDec30of2024 : ℤ := 20087 * 86400000

def tJan1of2024 : ℤ := 19723 * 86400000

def tJan1of2027 : ℤ := 20819 * 86400000

def tJan1of2025 : ℤ := 20089 * 86400000

/-- Characterisation of yearFromDay, the defining property ECMA-262 gives
YearFromTime: day d lies between January 1 of its year and January 1 of the
following year. -/
theorem yearFromDay_spec (d : ℤ) :
    dayFromYear (yearFromDay d) ≤ d ∧ d < dayFromYear (yearFromDay d + 1) := by
  have e1 : (1969 + (400*d)/146097 + 1 : ℤ) + 1 = 1969 + (400*d)/146097 + 2 := by ring
  have e2 : (1969 + (400*d)/146097 + 2 : ℤ) + 1 = 1969 + (400*d)/146097 + 3 := by ring
  have e3 : (1969 + (400*d)/146097 + 3 : ℤ) + 1 = 1969 + (400*d)/146097 + 4 := by ring
  unfold yearFromDay
  dsimp only
  split
  · refine ⟨?_, by assumption⟩
    unfold dayFromYear
    omega
  · split
    · rw [e1]
      exact ⟨by omega, by assumption⟩
    · split
      · rw [e2]
        exact ⟨by omega, by assumption⟩
      · rw [e3]
        refine ⟨by omega, ?_⟩
        unfold dayFromYear
        omega

/-- A calendar year spans 365 or 366 days. -/
theorem dayFromYear_span (y : ℤ) :
    365 ≤ dayFromYear (y+1) - dayFromYear y ∧
      dayFromYear (y+1) - dayFromYear y ≤ 366 := by
  unfold dayFromYear
  omega

/-- Core week-number range fact: for any Thursday day number d1, the formula
of getWeekNumber applied to d1 and January 1 of the year of d1 lands in
[1, 53]. -/
theorem weekNumberCore (d1 : ℤ) :
    1 ≤ (d1 - dayFromYear (yearFromDay d1) + 1 + 6) / 7 ∧
      (d1 - dayFromYear (yearFromDay d1) + 1 + 6) / 7 ≤ 53 := by
  have h1 := yearFromDay_spec d1
  have h2 := dayFromYear_span (yearFromDay d1)
  omega

/-- C6: for every instant, the computed week number lies in [1, 53], the
resolved week bounds bracket the instant, and the bounds span exactly 6
days, 23 hours, 59 minutes, 59.999 seconds (604799999 milliseconds). -/
theorem weekNumber_range_and_bounds (t : ℤ) :
    (1 ≤ getWeekNumber t ∧ getWeekNumber t ≤ 53) ∧
      ((getWeekBounds t).1 ≤ t ∧ t ≤ (getWeekBounds t).2) ∧
      (getWeekBounds t).2 - (getWeekBounds t).1 = 604799999 := by
  refine ⟨?_, ?_, ?_⟩
  · unfold getWeekNumber
    dsimp only
    exact weekNumberCore _
  · unfold getWeekBounds weekStartDay weekDay tday
    dsimp only
    constructor
    · split <;> omega
    · split <;> omega
  · unfold getWeekBounds
    dsimp only
    ring

/-- The replay body of the recalculation loop performs exactly the aggregate
mutation of updateUserStats (the two code blocks update the same fields with
the same values, in a different textual order). -/
theorem recalcStep_eq_updateUserStats (y : ℤ) :
    recalcStep y = updateUserStats y := by
  funext u r
  rfl

/-- C1: running the full recompute after the ride history is persisted gives
the user aggregate obtained by replaying the same chronologically ordered
history through the incremental update from the zeroed aggregate, for the
same current wall-clock year. -/
theorem recompute_eq_incremental_replay (y : ℤ) (s : AppState) :
    (recalcHandler y s).user =
      (sortedRidesOf s).foldl (updateUserStats y) zeroUserStats := by
  show recalculateUserStats y (sortedRidesOf s) = _
  unfold recalculateUserStats
  rw [recalcStep_eq_updateUserStats]

/-- C2: on nonnegative distance and speed, the coin computation is rounding
half away from zero of distance times speed over two (Math.round ties toward
positive infinity, which agrees with away-from-zero on nonnegative values),
and it is monotone non-decreasing in the distance and in the speed. -/
theorem calculateCoins_round_and_monotone
    (d s d2 s2 : ℚ) (hd : 0 ≤ d) (hs : 0 ≤ s) :
    calculateCoins d s = roundHalfAwayFromZero (d * s / 2) ∧
      (d ≤ d2 → calculateCoins d s ≤ calculateCoins d2 s) ∧
      (s ≤ s2 → calculateCoins d s ≤ calculateCoins d s2) := by
  refine ⟨?_, ?_, ?_⟩
  · unfold calculateCoins jsRound roundHalfAwayFromZero
    rw [if_pos (div_nonneg (mul_nonneg hd hs) (by norm_num))]
  · intro h
    unfold calculateCoins jsRound
    apply Int.floor_le_floor
    have : d * s ≤ d2 * s := mul_le_mul_of_nonneg_right h hs
    linarith
  · intro h
    unfold calculateCoins jsRound
    apply Int.floor_le_floor
    have : d * s ≤ d * s2 := mul_le_mul_of_nonneg_left h hd
    linarith

/-- Witness for C2 at distance 20 km, speed 25 km/h against distance 21 and
speed 26. -/
theorem calculateCoins_round_and_monotone_witness :
    (0 ≤ (20:ℚ)) ∧ (0 ≤ (25:ℚ)) ∧
      (calculateCoins 20 25 = roundHalfAwayFromZero (20 * 25 / 2) ∧
        ((20:ℚ) ≤ 21 → calculateCoins 20 25 ≤ calculateCoins 21 25) ∧
        ((25:ℚ) ≤ 26 → calculateCoins 20 25 ≤ calculateCoins 20 26)) :=
  ⟨by norm_num, by norm_num,
    calculateCoins_round_and_monotone 20 25 21 26 (by norm_num) (by norm_num)⟩

/-- Non-strict JavaScript order used to express that best-effort times never
worsen: strictly smaller or equal. -/
def jsLe (a b : JSNum) : Prop := jsLt a b = true ∨ a = b

/-- Order on stored best-effort fields under which updates are improvements:
an unset field (null) sits above every value, a set field never returns to
null and never grows. -/
def bestsLe (a b : Option JSNum) : Prop :=
  b = none ∨ ∃ x y, a = some x ∧ b = some y ∧ jsLe x y

theorem jsLt_trans (a b c : JSNum)
    (h1 : jsLt a b = true) (h2 : jsLt b c = true) : jsLt a c = true := by
  cases a <;> cases b <;> cases c <;> simp_all [jsLt]
  linarith

theorem jsLe_refl (a : JSNum) : jsLe a a := Or.inr rfl

theorem jsLe_trans (a b c : JSNum) (h1 : jsLe a b) (h2 : jsLe b c) : jsLe a c := by
  rcases h1 with h1 | rfl
  · rcases h2 with h2 | rfl
    · exact Or.inl (jsLt_trans a b c h1 h2)
    · exact Or.inl h1
  · exact h2

theorem bestsLe_refl (a : Option JSNum) : bestsLe a a := by
  cases a with
  | none => exact Or.inl rfl
  | some x => exact Or.inr ⟨x, x, rfl, rfl, jsLe_refl x⟩

theorem bestsLe_trans (a b c : Option JSNum)
    (h1 : bestsLe a b) (h2 : bestsLe b c) : bestsLe a c := by
  rcases h2 with hc | ⟨x, y, hbx, hcy, hxy⟩
  · exact Or.inl hc
  · rcases h1 with hb | ⟨u, v, hau, hbv, huv⟩
    · rw [hb] at hbx
      cases hbx
    · have hvx : v = x := by
        rw [hbv] at hbx
        exact Option.some.inj hbx
      exact Or.inr ⟨u, y, hau, hcy, jsLe_trans u x y (hvx ▸ huv) hxy⟩

/-- One pass of the best-effort loop never worsens the stored field. -/
theorem updateOneEffort_le (d : ℚ) (cur : Option JSNum) (r : Ride) :
    bestsLe (updateOneEffort d cur r) cur := by
  unfold updateOneEffort
  split
  · cases cur with
    | none => exact Or.inl rfl
    | some c =>
      dsimp only
      split
      · exact Or.inr ⟨_, c, rfl, rfl, Or.inl (by assumption)⟩
      · exact bestsLe_refl _
  · exact bestsLe_refl _

/-- The six computed-key fields of updateBestEfforts, read back through
bestField, evolve by updateOneEffort on the matching field. -/
theorem bestField_updateBestEfforts (u : UserStats) (r : Ride) (d : ℚ)
    (hd : d ∈ effortDistances) :
    bestField (updateBestEfforts u r) d = updateOneEffort d (bestField u d) r := by
  fin_cases hd <;> rfl

/-- The full incremental update touches a best-effort field exactly as the
best-effort loop does (its other mutations leave these fields alone). -/
theorem bestField_updateUserStats (y : ℤ) (u : UserStats) (r : Ride) (d : ℚ)
    (hd : d ∈ effortDistances) :
    bestField (updateUserStats y u r) d = updateOneEffort d (bestField u d) r := by
  fin_cases hd <;> rfl

theorem foldl_bestsLe (y : ℤ) (d : ℚ) (hd : d ∈ effortDistances) :
    ∀ (rides : List Ride) (u : UserStats),
      bestsLe (bestField (rides.foldl (updateUserStats y) u) d) (bestField u d) := by
  intro rides
  induction rides with
  | nil => intro u; exact bestsLe_refl _
  | cons r rest ih =>
    intro u
    rw [List.foldl_cons]
    refine bestsLe_trans _ _ _ (ih (updateUserStats y u r)) ?_
    rw [bestField_updateUserStats y u r d hd]
    exact updateOneEffort_le d (bestField u d) r

theorem foldl_never_set (y : ℤ) (d : ℚ) (hd : d ∈ effortDistances) :
    ∀ (rides : List Ride) (u : UserStats), bestField u d = none →
      (∀ r ∈ rides, r.distance < d) →
      bestField (rides.foldl (updateUserStats y) u) d = none := by
  intro rides
  induction rides with
  | nil => intro u h _; exact h
  | cons r rest ih =>
    intro u h hall
    rw [List.foldl_cons]
    apply ih
    · rw [bestField_updateUserStats y u r d hd, h]
      unfold updateOneEffort
      rw [if_neg (not_le.mpr (hall r (List.mem_cons_self r rest)))]
    · intro r2 hr2
      exact hall r2 (List.mem_cons_of_mem r hr2)

/-- C7: for every ride and target distance in the fixed set, the best-effort
update skips targets the ride does not reach, otherwise installs the pace
estimate exactly when the stored record is null or strictly beaten; over any
ride sequence each best-effort field is non-increasing (in the improvement
order bestsLe), and a field is never set when no ride covered the target. -/
theorem bestEfforts_rule_and_monotone :
    (∀ (u : UserStats) (r : Ride) (d : ℚ), d ∈ effortDistances →
      (r.distance < d → bestField (updateBestEfforts u r) d = bestField u d) ∧
      (d ≤ r.distance →
        bestField (updateBestEfforts u r) d =
          (match bestField u d with
           | none => some (timeForDistance d r.averageSpeed)
           | some c =>
             if jsLt (timeForDistance d r.averageSpeed) c
             then some (timeForDistance d r.averageSpeed)
             else some c))) ∧
    (∀ (y : ℤ) (rides : List Ride) (u : UserStats) (d : ℚ), d ∈ effortDistances →
      bestsLe (bestField (rides.foldl (updateUserStats y) u) d) (bestField u d)) ∧
    (∀ (y : ℤ) (rides : List Ride) (d : ℚ), d ∈ effortDistances →
      (∀ r ∈ rides, r.distance < d) →
      bestField (rides.foldl (updateUserStats y) zeroUserStats) d = none) := by
  refine ⟨?_, ?_, ?_⟩
  · intro u r d hd
    constructor
    · intro hlt
      rw [bestField_updateBestEfforts u r d hd]
      unfold updateOneEffort
      rw [if_neg (not_le.mpr hlt)]
    · intro hge
      rw [bestField_updateBestEfforts u r d hd]
      unfold updateOneEffort
      rw [if_pos hge]
  · intro y rides u d hd
    exact foldl_bestsLe y d hd rides u
  · intro y rides d hd hall
    exact foldl_never_set y d hd rides zeroUserStats (by fin_cases hd <;> rfl) hall

/-- Sample request of the end-to-end example of the specification: 20 km at
25 km/h, 2880 s moving, 150 m climbed. -/
def sampleReq : RideReq :=
  { distance := 20, averageSpeed := 25, movingTime := 2880, elevationGained := 150 }

/-- Ride document that createRide persists for sampleReq on 2025-01-01 with
id 1 for user 7 (coinsEarned = round(20 * 25 / 2) = 250). -/
def sampleRide : Ride :=
  { rid := 1, userId := 7, distance := 20, averageSpeed := 25, movingTime := 2880,
    elevationGained := 150, coinsEarned := 250, activityDate := tJan1of2025 }

/-- Ride with zero moving time (the ride validation rules admit movingTime
0), exercising the unguarded weekly division. -/
def zeroTimeRide : Ride :=
  { rid := 2, userId := 7, distance := 5, averageSpeed := 10, movingTime := 0,
    elevationGained := 0, coinsEarned := 25, activityDate := tJan1of2025 }

/-- State of user 7 with no documents yet. -/
def sampleState : AppState :=
  { userId := 7, user := zeroUserStats, rides := [], weekly := [], flags := [] }

/-- State of user 7 holding exactly sampleRide and a pending flag on it. -/
def delState : AppState :=
  { userId := 7, user := zeroUserStats, rides := [sampleRide], weekly := [],
    flags := [{ fid := 3, rideId := 1, status := .pending }] }

/-- Witness for C7: sampleRide (20 km at 25 km/h) skips the 25 km target,
installs the pace estimate for the 10 km target, never worsens the 10 km
field, and leaves the 50 km field null. -/
theorem bestEfforts_rule_and_monotone_witness :
    (sampleRide.distance < (25:ℚ) ∧
      bestField (updateBestEfforts zeroUserStats sampleRide) 25 =
        bestField zeroUserStats 25) ∧
    ((10:ℚ) ≤ sampleRide.distance ∧
      bestField (updateBestEfforts zeroUserStats sampleRide) 10 =
        (match bestField zeroUserStats 10 with
         | none => some (timeForDistance 10 sampleRide.averageSpeed)
         | some c =>
           if jsLt (timeForDistance 10 sampleRide.averageSpeed) c
           then some (timeForDistance 10 sampleRide.averageSpeed)
           else some c)) ∧
    bestsLe (bestField ([sampleRide].foldl (updateUserStats 2025) zeroUserStats) 10)
      (bestField zeroUserStats 10) ∧
    bestField ([sampleRide].foldl (updateUserStats 2025) zeroUserStats) 50 = none := by
  refine ⟨⟨?_, ?_⟩, ⟨?_, ?_⟩, ?_, ?_⟩
  · norm_num [sampleRide]
  · exact (bestEfforts_rule_and_monotone.1 zeroUserStats sampleRide 25
      (by decide)).1 (by norm_num [sampleRide])
  · norm_num [sampleRide]
  · exact (bestEfforts_rule_and_monotone.1 zeroUserStats sampleRide 10
      (by decide)).2 (by norm_num [sampleRide])
  · exact bestEfforts_rule_and_monotone.2.1 2025 [sampleRide] zeroUserStats 10 (by decide)
  · exact bestEfforts_rule_and_monotone.2.2 2025 [sampleRide] 50 (by decide)
      (by intro r hr; rw [List.mem_singleton] at hr; subst hr; norm_num [sampleRide])

/-- Counterexample for C3: at the concrete creation request of the
end-to-end example, the handler neither applies the incremental per-user
aggregate update (the resulting user aggregate differs from it) nor touches
any weekly document (the weekly collection stays empty), even though the
ride is persisted. -/
theorem createRide_skips_aggregates_cex :
    (createRide sampleState sampleReq tJan1of2025 1).user ≠
        updateUserStats 2025 sampleState.user sampleRide ∧
      (createRide sampleState sampleReq tJan1of2025 1).weekly = sampleState.weekly ∧
      (createRide sampleState sampleReq tJan1of2025 1).rides = [sampleRide] := by
  refine ⟨?_, rfl, ?_⟩
  · intro h
    have hTD := congrArg UserStats.totalDistance h
    norm_num [createRide, sampleState, sampleReq, updateUserStats, updateBestEfforts,
      sampleRide, zeroUserStats] at hTD
  · norm_num [createRide, sampleState, sampleReq, sampleRide, jsRound]

/-- C3 as amended: on every creation request the handler computes the coin
reward by the calculateCoins formula, appends the persisted ride carrying
that reward, increments only totalCoins on the user document, and leaves
every other user-aggregate field, the weekly collection and the flags
untouched. -/
theorem createRide_coins_only (s : AppState) (req : RideReq) (now : ℤ) (newId : ℕ) :
    (createRide s req now newId).user.totalCoins =
        s.user.totalCoins + (calculateCoins req.distance req.averageSpeed : ℚ) ∧
      (createRide s req now newId).user.totalDistance = s.user.totalDistance ∧
      (createRide s req now newId).user.distanceThisYear = s.user.distanceThisYear ∧
      (createRide s req now newId).user.longestRideDistance = s.user.longestRideDistance ∧
      (createRide s req now newId).user.longestRideTime = s.user.longestRideTime ∧
      (createRide s req now newId).user.maxElevationGained = s.user.maxElevationGained ∧
      (createRide s req now newId).user.best10kmTime = s.user.best10kmTime ∧
      (createRide s req now newId).user.best20kmTime = s.user.best20kmTime ∧
      (createRide s req now newId).user.best25kmTime = s.user.best25kmTime ∧
      (createRide s req now newId).user.best50kmTime = s.user.best50kmTime ∧
      (createRide s req now newId).user.best75kmTime = s.user.best75kmTime ∧
      (createRide s req now newId).user.best100kmTime = s.user.best100kmTime ∧
      (createRide s req now newId).weekly = s.weekly ∧
      (createRide s req now newId).flags = s.flags ∧
      (createRide s req now newId).rides =
        s.rides ++ [{ rid := newId, userId := s.userId, distance := req.distance,
                      averageSpeed := req.averageSpeed, movingTime := req.movingTime,
                      elevationGained := req.elevationGained,
                      coinsEarned := (calculateCoins req.distance req.averageSpeed : ℚ),
                      activityDate := now }] :=
  ⟨rfl, rfl, rfl, rfl, rfl, rfl, rfl, rfl, rfl, rfl, rfl, rfl, rfl, rfl, rfl⟩

/-- Counterexample for C4: applying the weekly update for a zero-moving-time
ride to a fresh weekly document leaves totalMovingTime at 0, and the stored
averageSpeed is then Infinity — the division is not guarded and does not
yield 0. -/
theorem weeklyAverageSpeed_zero_divisor_cex :
    (updateWeeklyStats (freshWeekly tJan1of2025) zeroTimeRide).totalMovingTime = 0 ∧
      (updateWeeklyStats (freshWeekly tJan1of2025) zeroTimeRide).averageSpeed =
        JSNum.posInf ∧
      JSNum.posInf ≠ JSNum.fin 0 := by
  refine ⟨?_, ?_, by decide⟩ <;>
    norm_num [updateWeeklyStats, freshWeekly, zeroTimeRide, jsDivQ]

/-- C4 as amended: after every weekly update, averageSpeed is the JavaScript
division of the new totalDistance by the new totalMovingTime over 3600;
whenever totalMovingTime is nonzero that division is the finite true
quotient, but at zero it is unguarded (Infinity or NaN, see the
counterexample), not 0. -/
theorem weeklyAverageSpeed_formula (w : WeeklyStat) (r : Ride) :
    (updateWeeklyStats w r).averageSpeed =
      jsDivQ (updateWeeklyStats w r).totalDistance
        ((updateWeeklyStats w r).totalMovingTime / 3600) ∧
      ((updateWeeklyStats w r).totalMovingTime ≠ 0 →
        (updateWeeklyStats w r).averageSpeed =
          JSNum.fin ((updateWeeklyStats w r).totalDistance /
            ((updateWeeklyStats w r).totalMovingTime / 3600))) := by
  constructor
  · rfl
  · intro h
    have hm : (updateWeeklyStats w r).totalMovingTime = w.totalMovingTime + r.movingTime := rfl
    have hd2 : (updateWeeklyStats w r).totalDistance = w.totalDistance + r.distance := rfl
    rw [hm] at h
    rw [hm, hd2]
    show jsDivQ _ _ = _
    unfold jsDivQ
    rw [if_pos (div_ne_zero h (by norm_num))]

/-- Witness for C4 as amended, at a fresh week receiving sampleRide. -/
theorem weeklyAverageSpeed_formula_witness :
    (updateWeeklyStats (freshWeekly tJan1of2025) sampleRide).totalMovingTime ≠ 0 ∧
      (updateWeeklyStats (freshWeekly tJan1of2025) sampleRide).averageSpeed =
        JSNum.fin ((updateWeeklyStats (freshWeekly tJan1of2025) sampleRide).totalDistance /
          ((updateWeeklyStats (freshWeekly tJan1of2025) sampleRide).totalMovingTime / 3600)) :=
  ⟨by norm_num [updateWeeklyStats, freshWeekly, sampleRide],
    (weeklyAverageSpeed_formula (freshWeekly tJan1of2025) sampleRide).2
      (by norm_num [updateWeeklyStats, freshWeekly, sampleRide])⟩

/-- Counterexample for C5: Monday 2024-12-30 ISO-belongs to week 1 (its
ISO week-year is 2025), yet getOrCreate keys it under the calendar year
2024, not under 2025 as the claim requires. -/
theorem weeklyKey_iso_mismatch_cex :
    getWeekNumber tDec30of2024 = 1 ∧
      isoWeekYear tDec30of2024 = 2025 ∧
      weeklyKey tDec30of2024 = (2024, 1) ∧
      (weeklyKey tDec30of2024).1 ≠ isoWeekYear tDec30of2024 :=
  ⟨by decide, by decide, by decide, by decide⟩

/-- C5 as amended: the year stored with the ISO week number is the calendar
year of the instant, not the ISO week-year.  Consequently Monday 2024-12-30
(ISO week 1 of 2025) and Monday 2024-01-01 (ISO week 1 of 2024), 364 days
apart, collide on the same stored key (2024, 1), and Friday 2027-01-01,
which ISO-belongs to week 53 of 2026, is keyed (2027, 53) rather than under
the previous year. -/
theorem weeklyKey_calendar_year :
    (∀ t : ℤ, weeklyKey t = (getFullYear t, getWeekNumber t)) ∧
      weeklyKey tDec30of2024 = weeklyKey tJan1of2024 ∧
      tday tDec30of2024 - tday tJan1of2024 = 364 ∧
      weeklyKey tJan1of2027 = (2027, 53) ∧
      isoWeekYear tJan1of2027 = 2026 :=
  ⟨fun _ => rfl, by decide, by decide, by decide, by decide⟩

/-- C8: on the incremental deletion paths — owner self-delete and admin
delete of a resolved ride of the modelled user — the only user-aggregate
field that changes is totalCoins, decremented by exactly the coinsEarned of
the deleted ride; the distance totals, the longest-ride records, the
maximum elevation and all six best-effort fields are unchanged. -/
theorem deletion_decrements_coins_only :
    (∀ (s : AppState) (rideId : ℕ) (r : Ride),
      findRide s.rides rideId = some r → r.userId = s.userId →
      (deleteRide s s.userId rideId).user.totalCoins =
          s.user.totalCoins - r.coinsEarned ∧
        (deleteRide s s.userId rideId).user.totalDistance = s.user.totalDistance ∧
        (deleteRide s s.userId rideId).user.distanceThisYear = s.user.distanceThisYear ∧
        (deleteRide s s.userId rideId).user.longestRideDistance = s.user.longestRideDistance ∧
        (deleteRide s s.userId rideId).user.longestRideTime = s.user.longestRideTime ∧
        (deleteRide s s.userId rideId).user.maxElevationGained = s.user.maxElevationGained ∧
        (deleteRide s s.userId rideId).user.best10kmTime = s.user.best10kmTime ∧
        (deleteRide s s.userId rideId).user.best20kmTime = s.user.best20kmTime ∧
        (deleteRide s s.userId rideId).user.best25kmTime = s.user.best25kmTime ∧
        (deleteRide s s.userId rideId).user.best50kmTime = s.user.best50kmTime ∧
        (deleteRide s s.userId rideId).user.best75kmTime = s.user.best75kmTime ∧
        (deleteRide s s.userId rideId).user.best100kmTime = s.user.best100kmTime) ∧
    (∀ (s : AppState) (rideId : ℕ) (r : Ride),
      findRide s.rides rideId = some r → r.userId = s.userId →
      (adminDeleteRide s rideId).user.totalCoins =
          s.user.totalCoins - r.coinsEarned ∧
        (adminDeleteRide s rideId).user.totalDistance = s.user.totalDistance ∧
        (adminDeleteRide s rideId).user.distanceThisYear = s.user.distanceThisYear ∧
        (adminDeleteRide s rideId).user.longestRideDistance = s.user.longestRideDistance ∧
        (adminDeleteRide s rideId).user.longestRideTime = s.user.longestRideTime ∧
        (adminDeleteRide s rideId).user.maxElevationGained = s.user.maxElevationGained ∧
        (adminDeleteRide s rideId).user.best10kmTime = s.user.best10kmTime ∧
        (adminDeleteRide s rideId).user.best20kmTime = s.user.best20kmTime ∧
        (adminDeleteRide s rideId).user.best25kmTime = s.user.best25kmTime ∧
        (adminDeleteRide s rideId).user.best50kmTime = s.user.best50kmTime ∧
        (adminDeleteRide s rideId).user.best75kmTime = s.user.best75kmTime ∧
        (adminDeleteRide s rideId).user.best100kmTime = s.user.best100kmTime) := by
  constructor
  · intro s rideId r hfind hown
    unfold deleteRide
    rw [hfind]
    dsimp only
    rw [if_neg (show ¬ r.userId ≠ s.userId from fun hc => hc hown)]
    rw [if_pos rfl]
    exact ⟨rfl, rfl, rfl, rfl, rfl, rfl, rfl, rfl, rfl, rfl, rfl, rfl⟩
  · intro s rideId r hfind hown
    unfold adminDeleteRide
    rw [hfind]
    dsimp only
    rw [if_pos hown]
    exact ⟨rfl, rfl, rfl, rfl, rfl, rfl, rfl, rfl, rfl, rfl, rfl, rfl⟩

/-- Witness for C8: deleting sampleRide from delState on both paths
decrements totalCoins of user 7 by its 250 coins. -/
theorem deletion_decrements_coins_only_witness :
    (deleteRide delState delState.userId 1).user.totalCoins =
        delState.user.totalCoins - sampleRide.coinsEarned ∧
      (adminDeleteRide delState 1).user.totalCoins =
        delState.user.totalCoins - sampleRide.coinsEarned :=
  ⟨(deletion_decrements_coins_only.1 delState 1 sampleRide rfl rfl).1,
    (deletion_decrements_coins_only.2 delState 1 sampleRide rfl rfl).1⟩

/-- Counterexample for C9: a negative distance reaching the calculator is
not rejected and no error is signalled — the function totally returns
round(d times s over 2), here the negative coin value -2. -/
theorem calculateCoins_negative_input_cex :
    calculateCoins (-2) 2 = -2 ∧ calculateCoins (-2) 2 < 0 := by
  constructor <;> norm_num [calculateCoins, jsRound]

/-- C9 as amended: the coin calculator performs no input validation and
signals no error; a negative input silently yields round(d times s over 2),
which can be negative (see the counterexample), and only for nonnegative
distance and speed is the result guaranteed nonnegative. -/
theorem calculateCoins_nonneg_on_valid (d s : ℚ) (hd : 0 ≤ d) (hs : 0 ≤ s) :
    0 ≤ calculateCoins d s := by
  unfold calculateCoins jsRound
  refine Int.le_floor.mpr ?_
  push_cast
  have hds := mul_nonneg hd hs
  have : (0:ℚ) ≤ d * s / 2 := div_nonneg hds (by norm_num)
  linarith

/-- Witness for C9 as amended at the sample input. -/
theorem calculateCoins_nonneg_on_valid_witness :
    (0 ≤ (20:ℚ)) ∧ (0 ≤ (25:ℚ)) ∧ 0 ≤ calculateCoins 20 25 :=
  ⟨by norm_num, by norm_num,
    calculateCoins_nonneg_on_valid 20 25 (by norm_num) (by norm_num)⟩

/-- C10: no deletion or recompute path writes a weekly document — the owner
deletion handler, the admin deletion handler, the flag-review deletion and
the full recompute all leave the weekly collection exactly as it was, so the
contributions of a deleted ride remain in the rollup of its week. -/
theorem deletion_and_recompute_preserve_weekly :
    (∀ (s : AppState) (requesterId rideId : ℕ),
      (deleteRide s requesterId rideId).weekly = s.weekly) ∧
      (∀ (s : AppState) (rideId : ℕ),
        (adminDeleteRide s rideId).weekly = s.weekly) ∧
      (∀ (s : AppState) (flagId : ℕ),
        (reviewFlag s flagId).weekly = s.weekly) ∧
      (∀ (y : ℤ) (s : AppState), (recalcHandler y s).weekly = s.weekly) := by
  refine ⟨?_, ?_, ?_, ?_⟩
  · intro s requesterId rideId
    unfold deleteRide
    split
    · rfl
    · split
      · rfl
      · split <;> rfl
  · intro s rideId
    unfold adminDeleteRide
    split <;> rfl
  · intro s flagId
    unfold reviewFlag
    split
    · rfl
    · split
      · rfl
      · split <;> rfl
  · intro y s
    rfl
